import Mathlib

/-!
Verification of the scenario_runner repository's lane-relative geometry and
metric-extraction code.

The embedding follows the Python sources:
* `srunner/metrics/control_loss_metric.py` (`ControlLossMetric._create_metrics`)
* `srunner/scenarios/object_crash_vehicle.py` (`StationaryObjectCrossing.__init__`,
  `DynamicObjectCrossing.__init__`)

Machine reals are modelled as `ℝ`; Python lists as `List`; Python's fallible
operations (float division by zero, unbound-name lookup, missing recording
data) as `Except`-valued functions.
-/

namespace ScenarioRunner

/-- A 3-component vector, modelling `carla.Vector3D` / `carla.Location`
(x, y, z components). -/
structure Vec3 where
  x : ℝ
  y : ℝ
  z : ℝ

instance : Inhabited Vec3 := ⟨⟨0, 0, 0⟩⟩

noncomputable instance : Add Vec3 := ⟨fun a b => ⟨a.x + b.x, a.y + b.y, a.z + b.z⟩⟩

noncomputable instance : Sub Vec3 := ⟨fun a b => ⟨a.x - b.x, a.y - b.y, a.z - b.z⟩⟩

/-- Scalar multiple of a vector (Python's `scalar * vector` on `carla.Vector3D`). -/
noncomputable def Vec3.smul (c : ℝ) (v : Vec3) : Vec3 := ⟨c * v.x, c * v.y, c * v.z⟩

/-- Euclidean dot product of two vectors. -/
noncomputable def Vec3.dot (a b : Vec3) : ℝ := a.x * b.x + a.y * b.y + a.z * b.z

/-- Euclidean norm of a vector. -/
noncomputable def vecNorm (v : Vec3) : ℝ := Real.sqrt (Vec3.dot v v)

/-- A lane waypoint as consumed by the metric code: its transform's location,
forward and right vectors (`waypoint.transform.location`,
`waypoint.transform.get_forward_vector()`, `waypoint.transform.get_right_vector()`)
and its `lane_width`. -/
structure Waypoint where
  location : Vec3
  forwardVec : Vec3
  rightVec : Vec3
  laneWidth : ℝ

/-- The signed lateral offset computed by the loop body of
`ControlLossMetric._create_metrics` (control_loss_metric.py lines 62-83):
dot of the right vector with `hero_location - waypoint.location`, division by
the squared norm of the right vector, norm of the projected vector, then
negation when the z-component of the horizontal cross product
`forward × hero_wp_vec` is negative. -/
noncomputable def signedLateralOffset (hero_waypoint : Waypoint) (hero_location : Vec3) : ℝ :=
  let perp_wp_vec := hero_waypoint.rightVec
  let hero_wp_vec := hero_location - hero_waypoint.location
  let dot := perp_wp_vec.x * hero_wp_vec.x + perp_wp_vec.y * hero_wp_vec.y +
    perp_wp_vec.z * hero_wp_vec.z
  let perp_wp := Real.sqrt (perp_wp_vec.x * perp_wp_vec.x + perp_wp_vec.y * perp_wp_vec.y +
    perp_wp_vec.z * perp_wp_vec.z)
  let project_vec := Vec3.smul (dot / (perp_wp * perp_wp)) perp_wp_vec
  let project_dist := Real.sqrt (project_vec.x * project_vec.x + project_vec.y * project_vec.y +
    project_vec.z * project_vec.z)
  let forw_wp_vec := hero_waypoint.forwardVec
  let cross_z := forw_wp_vec.x * hero_wp_vec.y - forw_wp_vec.y * hero_wp_vec.x
  if cross_z < 0 then -project_dist else project_dist

/-- The spec's (§4.1) description of `signedLateralOffset`, written with the
spec's own words: `dot = right·v`, `scale = dot / |right|²`,
`projectedVector = scale·right`, `magnitude = |projectedVector|`, negated
exactly when the z-component of `forward × v` is negative. -/
noncomputable def specSignedLateralOffset (wp : Waypoint) (worldLocation : Vec3) : ℝ :=
  let right := wp.rightVec
  let v := worldLocation - wp.location
  let dot := Vec3.dot right v
  let scale := dot / vecNorm right ^ 2
  let projectedVector := Vec3.smul scale right
  let magnitude := vecNorm projectedVector
  let cross_z := wp.forwardVec.x * v.y - wp.forwardVec.y * v.x
  if cross_z < 0 then -magnitude else magnitude

/-- Python runtime errors raised by the embedded code, plus the spec's posited
invalid-geometry condition (§7), which the code itself never raises. -/
inductive PyError where
  | zeroDivisionError
  | invalidGeometry
  | nameError (n : String)
  | actorNotFound
  deriving DecidableEq

/-- The same loop body as `signedLateralOffset`, with Python's float-division
semantics made explicit: `dot / (perp_wp * perp_wp)` raises `ZeroDivisionError`
when the denominator is zero (the code has no guard before the division). -/
noncomputable def signedLateralOffsetChecked (hero_waypoint : Waypoint) (hero_location : Vec3) :
    Except PyError ℝ :=
  let perp_wp_vec := hero_waypoint.rightVec
  let hero_wp_vec := hero_location - hero_waypoint.location
  let dot := perp_wp_vec.x * hero_wp_vec.x + perp_wp_vec.y * hero_wp_vec.y +
    perp_wp_vec.z * hero_wp_vec.z
  let perp_wp := Real.sqrt (perp_wp_vec.x * perp_wp_vec.x + perp_wp_vec.y * perp_wp_vec.y +
    perp_wp_vec.z * perp_wp_vec.z)
  if perp_wp * perp_wp = 0 then Except.error PyError.zeroDivisionError
  else
    let project_vec := Vec3.smul (dot / (perp_wp * perp_wp)) perp_wp_vec
    let project_dist := Real.sqrt (project_vec.x * project_vec.x + project_vec.y * project_vec.y +
      project_vec.z * project_vec.z)
    let forw_wp_vec := hero_waypoint.forwardVec
    let cross_z := forw_wp_vec.x * hero_wp_vec.y - forw_wp_vec.y * hero_wp_vec.x
    Except.ok (if cross_z < 0 then -project_dist else project_dist)

/-- Python math.radians: degrees to radians. -/
noncomputable def radians (deg : ℝ) : ℝ := deg * (Real.pi / 180)

/-- Unit direction vector in the horizontal plane at angle `φ` (radians). -/
noncomputable def dirVec (φ : ℝ) : Vec3 := ⟨Real.cos φ, Real.sin φ, 0⟩

/-- Modelled from the spec: a well-formed waypoint as delivered by the map
collaborator (spec §3: forward and right are unit vectors, mutually
perpendicular, in the lane's local tangent plane; §4.1/§2: right is the lane
heading rotated +90° in the horizontal plane, the convention of the simulator's
`get_forward_vector` / `get_right_vector` for a yaw-only rotation). The map
collaborator itself is outside the sources. -/
noncomputable def waypointFromYaw (p : Vec3) (yawDeg laneWidth : ℝ) : Waypoint :=
  ⟨p, dirVec (radians yawDeg), dirVec (radians (yawDeg + 90)), laneWidth⟩

/-- The `offset` dictionary of the crossing scenarios
(object_crash_vehicle.py lines 62 and 155): keys `orientation`, `position`,
`z`, `k`. -/
structure OffsetDict where
  orientation : ℝ
  position : ℝ
  z : ℝ
  k : ℝ

/-- A carla.Transform: a location plus a yaw-only rotation, as built at
object_crash_vehicle.py line 70 / 163. -/
structure Transform where
  location : Vec3
  rotationYaw : ℝ

/-- The dictionary offset = (orientation 270, position 90, z 0.2, k 0.2) of
StationaryObjectCrossing.__init__, line 62. -/
noncomputable def stationaryObjectCrossingOffset : OffsetDict := ⟨270, 90, 0.2, 0.2⟩

/-- The dictionary offset = (orientation 270, position 90, z 0.2, k 1.1) of
DynamicObjectCrossing.__init__, line 155. -/
noncomputable def dynamicObjectCrossingOffset : OffsetDict := ⟨270, 90, 0.2, 1.1⟩

/-- The spawn-pose computation shared by both crossing scenarios
(object_crash_vehicle.py lines 63-70 and 156-163): rotate the lane yaw by
`offset.position` degrees, displace the waypoint location by
`offset.k * lane_width` along that direction, lift the elevation by
`offset.z`, and orient the result at lane yaw plus `offset.orientation`.
`lane_width` is the ego vehicle's lane width (line 58 / 151). -/
noncomputable def spawnTransform (waypointLocation : Vec3) (waypointYaw lane_width : ℝ)
    (offset : OffsetDict) : Transform :=
  let position_yaw := waypointYaw + offset.position
  let orientation_yaw := waypointYaw + offset.orientation
  let offset_location : Vec3 :=
    ⟨offset.k * lane_width * Real.cos (radians position_yaw),
     offset.k * lane_width * Real.sin (radians position_yaw), 0⟩
  let location := waypointLocation + offset_location
  let location2 : Vec3 := ⟨location.x, location.y, location.z + offset.z⟩
  ⟨location2, orientation_yaw⟩

/-- The map collaborator of the metric code: `town_map.get_waypoint` as a
function from a world location to its nearest lane waypoint. -/
def CarlaMap : Type := Vec3 → Waypoint

/-- The recording collaborator's view used by `ControlLossMetric._create_metrics`:
the ego vehicle's id, its alive frame range (when present in the recording),
and the recorded transform locations returned by
`get_all_actor_states(hero_id, "transform", start, end)`. -/
structure MetricsLog where
  heroId : Nat
  aliveFrames : Option (Nat × Nat)
  transforms : List Vec3

/-- Modelled from the spec: `MetricsLog.get_actor_alive_frames` lives in
`srunner/metrics` support code outside the given sources; per §7 the Metric
Extractor "fails with a clear 'actor not found in recording' condition" when
the recording holds no alive-frame data for the actor. -/
def MetricsLog.getActorAliveFrames (log : MetricsLog) : Except PyError (Nat × Nat) :=
  match log.aliveFrames with
  | none => Except.error PyError.actorNotFound
  | some se => Except.ok se

/-- Python's `range(start, stop)` as a list, via a fuel-style recursion:
`rangeFrom n s = [s, s+1, ..., s+n-1]`. -/
def rangeFrom : Nat → Nat → List Nat
  | 0, _ => []
  | n + 1, s => s :: rangeFrom n (s + 1)

/-- Python range(start, stop): empty when stop ≤ start. -/
def pyRange (start stop : Nat) : List Nat := rangeFrom (stop - start) start

/-- The three accumulator lists of the metric loop
(`distances_list`, `lane_width_list`, `frames_list`, lines 45-47). -/
structure LoopLists where
  distances_list : List ℝ
  lane_width_list : List ℝ
  frames_list : List Nat

/-- One iteration of the metric loop (lines 54-88): read the transform at
0-based index `i - 1` ("Frames start at 1! Indexes should be one less"),
look up the nearest waypoint, halve its lane width, compute the signed
projection, and append to the three lists. -/
noncomputable def metricsStep (townMap : CarlaMap) (hero_transform_list : List Vec3)
    (acc : LoopLists) (i : Nat) : LoopLists :=
  let hero_location := hero_transform_list.getD (i - 1) default
  let hero_waypoint := townMap hero_location
  let lane_width := hero_waypoint.laneWidth / 2
  ⟨acc.distances_list ++ [signedLateralOffset hero_waypoint hero_location],
   acc.lane_width_list ++ [lane_width],
   acc.frames_list ++ [i]⟩

/-- The full metric loop `for i in range(start, end)` (lines 54-88), starting
from three empty lists. -/
noncomputable def metricsLoop (townMap : CarlaMap) (hero_transform_list : List Vec3)
    (start stop : Nat) : LoopLists :=
  (pyRange start stop).foldl (metricsStep townMap hero_transform_list) ⟨[], [], []⟩

/-- The recorded location used for frame `i`: array index `i - 1`
(line 57, "Frames start at 1! Indexes should be one less"). -/
noncomputable def frameLocation (hero_transform_list : List Vec3) (i : Nat) : Vec3 :=
  hero_transform_list.getD (i - 1) default

/-- The signed lateral offset the loop computes for frame `i`. -/
noncomputable def frameDistance (townMap : CarlaMap) (hero_transform_list : List Vec3)
    (i : Nat) : ℝ :=
  signedLateralOffset (townMap (frameLocation hero_transform_list i))
    (frameLocation hero_transform_list i)

/-- The lane half-width the loop records for frame `i` (line 60). -/
noncomputable def frameHalfWidth (townMap : CarlaMap) (hero_transform_list : List Vec3)
    (i : Nat) : ℝ :=
  (townMap (frameLocation hero_transform_list i)).laneWidth / 2

/-- The dictionary dumped to JSON: `results = {'frames': frames_list,
'distance': distances_list}` (line 90). -/
structure MetricResults where
  frames : List Nat
  distance : List ℝ

/-- File open mode; the metric file is opened with mode `'w'` (overwrite). -/
inductive FileMode where
  | write
  | append
  deriving DecidableEq

/-- The single file write performed at the end of `_create_metrics`
(lines 92-93). -/
structure WrittenFile where
  path : String
  mode : FileMode
  content : MetricResults

/-- Implementation of ControlLossMetric._create_metrics end to end: resolve the ego actor's
alive frame range (failing when the recording has none), run the metric loop
over `range(start, end)`, and write the results dictionary once to
`srunner/metrics/data/ControlLoss_metric.json` in overwrite mode. -/
noncomputable def createMetrics (townMap : CarlaMap) (log : MetricsLog) :
    Except PyError WrittenFile :=
  match log.getActorAliveFrames with
  | Except.error e => Except.error e
  | Except.ok (start, stop) =>
    let lists := metricsLoop townMap log.transforms start stop
    Except.ok ⟨"srunner/metrics/data/ControlLoss_metric.json", FileMode.write,
      ⟨lists.frames_list, lists.distances_list⟩⟩

/-- Python name lookup: resolves iff the name is bound in the given scope,
otherwise raises `NameError`. -/
def lookupName (scope : List String) (n : String) : Except PyError Unit :=
  if scope.contains n then Except.ok () else Except.error (PyError.nameError n)

/-- The names visible inside `StationaryObjectCrossing.__init__`
(object_crash_vehicle.py lines 43-78): its parameters, the locals it assigns,
the module-level bindings of object_crash_vehicle.py, and (modelled from the
spec's collaborator interfaces, §2/§6, since the star-imported modules are
outside the given sources) the collaborator names the module's code actually
uses. No binding of the name `town` exists anywhere among them. -/
def stationaryInitScope : List String :=
  ["self", "world", "ego_vehicle", "config", "randomize", "debug_mode", "criteria_enable",
   "_start_distance", "actor_parameters", "world_map", "lane_width", "location", "waypoint",
   "model", "offset", "position_yaw", "orientation_yaw", "offset_location", "transform",
   "py_trees", "TimeOut", "ActorConfigurationData", "get_location_in_distance",
   "OBJECT_CROSSING_SCENARIOS", "StationaryObjectCrossing", "DynamicObjectCrossing",
   "carla", "math", "BasicScenario", "CollisionTest"]

/-- The names visible inside `DynamicObjectCrossing.__init__`
(object_crash_vehicle.py lines 128-171); same module scope, plus the extra
locals `category`, `timeout`, `_other_actor_target_velocity`,
`_other_actor_max_brake`, `_time_to_reach`. -/
def dynamicInitScope : List String :=
  ["category", "timeout", "_other_actor_target_velocity", "_other_actor_max_brake",
   "_time_to_reach"] ++ stationaryInitScope

/-- Constructor StationaryObjectCrossing.__init__ (lines 43-78): after the first
base-class initialization (a collaborator call, modelled as succeeding) the
constructor computes the cyclist spawn transform (lines 55-71) and then makes
a second base-class call whose fourth argument is the name `town` (line 76);
Python evaluates the call's arguments first, so the name is looked up in the
constructor's scope. -/
noncomputable def stationaryObjectCrossingInit (ego_lane_width : ℝ) (waypointLocation : Vec3)
    (waypointYaw : ℝ) : Except PyError Transform :=
  let transform := spawnTransform waypointLocation waypointYaw ego_lane_width
    stationaryObjectCrossingOffset
  match lookupName stationaryInitScope "town" with
  | Except.error e => Except.error e
  | Except.ok _ => Except.ok transform

/-- Constructor DynamicObjectCrossing.__init__ (lines 128-171): same shape as the
stationary constructor, with the dynamic offset dictionary and the second
base-class call at line 169 passing the name `town`. -/
noncomputable def dynamicObjectCrossingInit (ego_lane_width : ℝ) (waypointLocation : Vec3)
    (waypointYaw : ℝ) : Except PyError Transform :=
  let transform := spawnTransform waypointLocation waypointYaw ego_lane_width
    dynamicObjectCrossingOffset
  match lookupName dynamicInitScope "town" with
  | Except.error e => Except.error e
  | Except.ok _ => Except.ok transform

/-- A malformed waypoint whose right vector has length zero (spec §7's
degenerate-geometry case). -/
noncomputable def degenerateWaypoint : Waypoint := ⟨⟨0, 0, 0⟩, ⟨1, 0, 0⟩, ⟨0, 0, 0⟩, 3⟩

/-- A concrete well-formed waypoint used to evaluate theorems on inputs:
located at the origin, heading along +x, right vector along +y, lane width 4. -/
noncomputable def sampleWaypoint : Waypoint := ⟨⟨0, 0, 0⟩, ⟨1, 0, 0⟩, ⟨0, 1, 0⟩, 4⟩

/-- A concrete map collaborator returning `sampleWaypoint` everywhere. -/
noncomputable def sampleMap : CarlaMap := fun _ => sampleWaypoint

/-- A concrete recorded transform sequence with three frames. -/
noncomputable def sampleTransforms : List Vec3 := [⟨0, 1, 0⟩, ⟨0, 2, 0⟩, ⟨0, 3, 0⟩]

/-!  Helper lemmas shared by the claim theorems. -/

theorem Vec3.ext3 {a b : Vec3} (hx : a.x = b.x) (hy : a.y = b.y) (hz : a.z = b.z) : a = b := by
  cases a
  cases b
  rw [Vec3.mk.injEq]
  exact ⟨hx, hy, hz⟩

theorem Vec3.add_sub_cancelLeft (p v : Vec3) : p + v - p = v :=
  Vec3.ext3 (by show p.x + v.x - p.x = v.x; ring) (by show p.y + v.y - p.y = v.y; ring)
    (by show p.z + v.z - p.z = v.z; ring)

/-- The code's projection (lines 62-83) and the spec's formula (§4.1) agree on
every waypoint and location: `(√q)·(√q) = q = |right|²` for the nonnegative
sum of squares `q`. -/
theorem signedLateralOffset_eq_spec (wp : Waypoint) (loc : Vec3) :
    signedLateralOffset wp loc = specSignedLateralOffset wp loc := by
  unfold signedLateralOffset specSignedLateralOffset
  have hq : (0 : ℝ) ≤ wp.rightVec.x * wp.rightVec.x + wp.rightVec.y * wp.rightVec.y +
      wp.rightVec.z * wp.rightVec.z :=
    add_nonneg (add_nonneg (mul_self_nonneg _) (mul_self_nonneg _)) (mul_self_nonneg _)
  have h1 : Real.sqrt (wp.rightVec.x * wp.rightVec.x + wp.rightVec.y * wp.rightVec.y +
      wp.rightVec.z * wp.rightVec.z) *
      Real.sqrt (wp.rightVec.x * wp.rightVec.x + wp.rightVec.y * wp.rightVec.y +
      wp.rightVec.z * wp.rightVec.z) = wp.rightVec.x * wp.rightVec.x +
      wp.rightVec.y * wp.rightVec.y + wp.rightVec.z * wp.rightVec.z :=
    Real.mul_self_sqrt hq
  simp only [Vec3.dot, vecNorm, Vec3.smul]
  rw [Real.sq_sqrt hq, h1]

/-- On a waypoint whose forward vector is a horizontal unit vector `(a, b, 0)`
and whose right vector is its +90° rotation `(-b, a, 0)`, the code's signed
projection collapses to the dot product of the right vector with the offset
vector. -/
theorem signedLateralOffset_unit_frame (wp : Waypoint) (loc : Vec3)
    (a b : ℝ) (hf : wp.forwardVec = ⟨a, b, 0⟩) (hr : wp.rightVec = ⟨-b, a, 0⟩)
    (hab : b * b + a * a = 1) :
    signedLateralOffset wp loc = Vec3.dot wp.rightVec (loc - wp.location) := by
  generalize hv : loc - wp.location = v
  obtain ⟨vx, vy, vz⟩ := v
  simp only [signedLateralOffset, hv, hf, hr, Vec3.dot, Vec3.smul]
  have hq : -b * -b + a * a + 0 * 0 = 1 := by linear_combination hab
  rw [hq, Real.sqrt_one]
  set d := -b * vx + a * vy + 0 * vz with hd
  have hinner : d / (1 * 1) * -b * (d / (1 * 1) * -b) + d / (1 * 1) * a * (d / (1 * 1) * a) +
      d / (1 * 1) * 0 * (d / (1 * 1) * 0) = d * d := by
    rw [show (1 : ℝ) * 1 = 1 from by norm_num, div_one]
    linear_combination d * d * hab
  rw [hinner, Real.sqrt_mul_self_eq_abs]
  have hcd : a * vy - b * vx = d := by rw [hd]; ring
  rw [hcd]
  rcases lt_or_le d 0 with h | h
  · rw [if_pos h, abs_of_neg h]; ring
  · rw [if_neg (not_lt.mpr h), abs_of_nonneg h]

theorem radians_add_90 (θ : ℝ) : radians (θ + 90) = radians θ + Real.pi / 2 := by
  unfold radians
  ring

theorem cos_radians_add_90 (θ : ℝ) :
    Real.cos (radians (θ + 90)) = -Real.sin (radians θ) := by
  rw [radians_add_90, Real.cos_add, Real.cos_pi_div_two, Real.sin_pi_div_two]
  ring

theorem sin_radians_add_90 (θ : ℝ) :
    Real.sin (radians (θ + 90)) = Real.cos (radians θ) := by
  rw [radians_add_90, Real.sin_add, Real.cos_pi_div_two, Real.sin_pi_div_two]
  ring

theorem rightVec_waypointFromYaw (p : Vec3) (θ w : ℝ) :
    (waypointFromYaw p θ w).rightVec =
      ⟨-Real.sin (radians θ), Real.cos (radians θ), 0⟩ := by
  show dirVec (radians (θ + 90)) = _
  unfold dirVec
  rw [cos_radians_add_90, sin_radians_add_90]

/-- On every well-formed waypoint the code's signed projection equals the
component of the offset vector along the right vector. -/
theorem signedLateralOffset_waypointFromYaw (p : Vec3) (θ w : ℝ) (loc : Vec3) :
    signedLateralOffset (waypointFromYaw p θ w) loc =
      Vec3.dot (waypointFromYaw p θ w).rightVec (loc - p) :=
  signedLateralOffset_unit_frame (waypointFromYaw p θ w) loc
    (Real.cos (radians θ)) (Real.sin (radians θ)) rfl
    (rightVec_waypointFromYaw p θ w)
    (by linear_combination Real.sin_sq_add_cos_sq (radians θ))

theorem vecNorm_dirVec (φ : ℝ) : vecNorm (dirVec φ) = 1 := by
  unfold vecNorm dirVec Vec3.dot
  have h : Real.cos φ * Real.cos φ + Real.sin φ * Real.sin φ + (0 : ℝ) * 0 = 1 := by
    linear_combination Real.sin_sq_add_cos_sq φ
  rw [h, Real.sqrt_one]

theorem dot_dirVec_perp (θ : ℝ) :
    Vec3.dot (dirVec (radians θ)) (dirVec (radians (θ + 90))) = 0 := by
  unfold Vec3.dot dirVec
  rw [cos_radians_add_90, sin_radians_add_90]
  ring

theorem length_rangeFrom : ∀ (n s : Nat), (rangeFrom n s).length = n := by
  intro n
  induction n with
  | zero => intro s; rfl
  | succ k ih =>
    intro s
    show (rangeFrom k (s + 1)).length + 1 = k + 1
    rw [ih (s + 1)]

theorem getD_rangeFrom : ∀ (n s j : Nat), j < n → (rangeFrom n s).getD j 0 = s + j := by
  intro n
  induction n with
  | zero => intro s j h; exact absurd h (Nat.not_lt_zero j)
  | succ k ih =>
    intro s j h
    cases j with
    | zero => rfl
    | succ j2 =>
      show (rangeFrom k (s + 1)).getD j2 0 = s + (j2 + 1)
      rw [ih (s + 1) j2 (by omega)]
      omega

theorem getD_map_rangeFrom {α : Type} (f : Nat → α) (d : α) :
    ∀ (n s j : Nat), j < n → ((rangeFrom n s).map f).getD j d = f (s + j) := by
  intro n
  induction n with
  | zero => intro s j h; exact absurd h (Nat.not_lt_zero j)
  | succ k ih =>
    intro s j h
    cases j with
    | zero => rfl
    | succ j2 =>
      show ((rangeFrom k (s + 1)).map f).getD j2 d = f (s + (j2 + 1))
      rw [ih (s + 1) j2 (by omega)]
      congr 1
      omega

theorem chain'_rangeFrom : ∀ (n s : Nat),
    List.Chain' (fun a b => b = a + 1) (rangeFrom n s) := by
  intro n
  induction n with
  | zero => intro s; exact List.chain'_nil
  | succ k ih =>
    intro s
    cases k with
    | zero => exact List.chain'_singleton s
    | succ k2 =>
      rw [show rangeFrom (k2 + 1 + 1) s = s :: rangeFrom (k2 + 1) (s + 1) from rfl]
      rw [show rangeFrom (k2 + 1) (s + 1) = (s + 1) :: rangeFrom k2 (s + 1 + 1) from rfl]
      rw [List.chain'_cons]
      refine ⟨rfl, ?_⟩
      rw [← show rangeFrom (k2 + 1) (s + 1) = (s + 1) :: rangeFrom k2 (s + 1 + 1) from rfl]
      exact ih (s + 1)

/-- Closed form of the metric loop's fold: each visited frame index appends
its frame number, its signed offset and its lane half-width, in order. -/
theorem foldl_metricsStep (townMap : CarlaMap) (tr : List Vec3) :
    ∀ (l : List Nat) (acc : LoopLists),
      l.foldl (metricsStep townMap tr) acc =
        ⟨acc.distances_list ++ l.map (frameDistance townMap tr),
         acc.lane_width_list ++ l.map (frameHalfWidth townMap tr),
         acc.frames_list ++ l⟩ := by
  intro l
  induction l with
  | nil => intro acc; simp
  | cons i t ih =>
    intro acc
    rw [List.foldl_cons, ih]
    simp only [metricsStep, frameDistance, frameHalfWidth, frameLocation, List.map_cons]
    rw [LoopLists.mk.injEq]
    refine ⟨?_, ?_, ?_⟩ <;> simp

/-- Closed form of the metric loop from the empty accumulators. -/
theorem metricsLoop_eq (townMap : CarlaMap) (tr : List Vec3) (start stop : Nat) :
    metricsLoop townMap tr start stop =
      ⟨(pyRange start stop).map (frameDistance townMap tr),
       (pyRange start stop).map (frameHalfWidth townMap tr),
       pyRange start stop⟩ := by
  unfold metricsLoop
  rw [foldl_metricsStep]
  simp

/-- C1: for every recorded ego frame, the signed lateral offset emitted by the
Metric Extractor equals the spec's §4.1 formula (dot with the right vector,
scale by the inverse squared norm, magnitude of the projected vector, negated
exactly when the z-component of the horizontal cross product forward × v is
negative), evaluated at that frame's recorded location. -/
theorem claim_C1_metric_offset_matches_spec_formula
    (townMap : CarlaMap) (tr : List Vec3) (start stop j : Nat) (h : j < stop - start) :
    (metricsLoop townMap tr start stop).distances_list.getD j 0 =
      specSignedLateralOffset (townMap (tr.getD (start + j - 1) default))
        (tr.getD (start + j - 1) default) := by
  rw [metricsLoop_eq]
  show ((pyRange start stop).map (frameDistance townMap tr)).getD j 0 = _
  unfold pyRange
  rw [getD_map_rangeFrom _ _ (stop - start) start j h]
  exact signedLateralOffset_eq_spec _ _

/-- Witness for C1 at a concrete map, transform list and frame. -/
theorem claim_C1_witness :
    0 < 3 - 1 ∧
    (metricsLoop sampleMap sampleTransforms 1 3).distances_list.getD 0 0 =
      specSignedLateralOffset (sampleMap (sampleTransforms.getD (1 + 0 - 1) default))
        (sampleTransforms.getD (1 + 0 - 1) default) :=
  ⟨by norm_num,
   claim_C1_metric_offset_matches_spec_formula sampleMap sampleTransforms 1 3 0 (by norm_num)⟩

/-- C2: the Metric Extractor iterates over exactly the frames
start, ..., stop - 1 in order, and for the external 1-based frame number
N = start + j it reads the recorded transform at 0-based array index N - 1 of
the recorded transform sequence. -/
theorem claim_C2_frame_iteration_and_indexing
    (townMap : CarlaMap) (tr : List Vec3) (start stop : Nat) :
    (metricsLoop townMap tr start stop).frames_list.length = stop - start ∧
    (∀ j, j < stop - start →
      (metricsLoop townMap tr start stop).frames_list.getD j 0 = start + j) ∧
    (∀ j, j < stop - start →
      (metricsLoop townMap tr start stop).distances_list.getD j 0 =
        signedLateralOffset (townMap (tr.getD (start + j - 1) default))
          (tr.getD (start + j - 1) default)) := by
  rw [metricsLoop_eq]
  refine ⟨?_, ?_, ?_⟩
  · show (pyRange start stop).length = stop - start
    exact length_rangeFrom _ _
  · intro j hj
    show (pyRange start stop).getD j 0 = start + j
    exact getD_rangeFrom _ _ _ hj
  · intro j hj
    show ((pyRange start stop).map (frameDistance townMap tr)).getD j 0 = _
    unfold pyRange
    rw [getD_map_rangeFrom _ _ (stop - start) start j hj]
    rfl

/-- Witness for C2 at a concrete map, transform list and frame range. -/
theorem claim_C2_witness :
    (metricsLoop sampleMap sampleTransforms 1 3).frames_list.length = 3 - 1 ∧
    (1 < 3 - 1 ∧ (metricsLoop sampleMap sampleTransforms 1 3).frames_list.getD 1 0 = 1 + 1) ∧
    (1 < 3 - 1 ∧ (metricsLoop sampleMap sampleTransforms 1 3).distances_list.getD 1 0 =
      signedLateralOffset (sampleMap (sampleTransforms.getD (1 + 1 - 1) default))
        (sampleTransforms.getD (1 + 1 - 1) default)) :=
  ⟨(claim_C2_frame_iteration_and_indexing sampleMap sampleTransforms 1 3).1,
   ⟨by norm_num, (claim_C2_frame_iteration_and_indexing sampleMap sampleTransforms 1 3).2.1 1
     (by norm_num)⟩,
   ⟨by norm_num, (claim_C2_frame_iteration_and_indexing sampleMap sampleTransforms 1 3).2.2 1
     (by norm_num)⟩⟩

/-- C3: placing an actor with the crossing scenarios' spawn computation at
lateral fraction k of lane width w (position offset 90°, any height offset),
then projecting the resulting location back with the metric code's signed
lateral offset against the same well-formed waypoint, returns exactly k·w,
which is nonnegative — the configured (right-hand) side. -/
theorem claim_C3_round_trip (p : Vec3) (θ laneW w z0 k : ℝ) (hk : 0 ≤ k) (hw : 0 ≤ w) :
    signedLateralOffset (waypointFromYaw p θ laneW)
        ((spawnTransform p θ w ⟨270, 90, z0, k⟩).location) = k * w ∧
    0 ≤ signedLateralOffset (waypointFromYaw p θ laneW)
        ((spawnTransform p θ w ⟨270, 90, z0, k⟩).location) := by
  have hloc : (spawnTransform p θ w ⟨270, 90, z0, k⟩).location - p =
      ⟨k * w * Real.cos (radians (θ + 90)), k * w * Real.sin (radians (θ + 90)), z0⟩ := by
    refine Vec3.ext3 ?_ ?_ ?_
    · show p.x + k * w * Real.cos (radians (θ + 90)) - p.x = k * w * Real.cos (radians (θ + 90))
      ring
    · show p.y + k * w * Real.sin (radians (θ + 90)) - p.y = k * w * Real.sin (radians (θ + 90))
      ring
    · show p.z + 0 + z0 - p.z = z0
      ring
  have key : signedLateralOffset (waypointFromYaw p θ laneW)
      ((spawnTransform p θ w ⟨270, 90, z0, k⟩).location) = k * w := by
    rw [signedLateralOffset_waypointFromYaw, rightVec_waypointFromYaw, hloc]
    unfold Vec3.dot
    show -Real.sin (radians θ) * (k * w * Real.cos (radians (θ + 90))) +
        Real.cos (radians θ) * (k * w * Real.sin (radians (θ + 90))) + 0 * z0 = k * w
    rw [cos_radians_add_90, sin_radians_add_90]
    linear_combination (k * w) * Real.sin_sq_add_cos_sq (radians θ)
  exact ⟨key, key ▸ mul_nonneg hk hw⟩

/-- Witness for C3 at a concrete waypoint with k = 1 and lane width 2. -/
theorem claim_C3_witness :
    0 ≤ (1 : ℝ) ∧ 0 ≤ (2 : ℝ) ∧
    (signedLateralOffset (waypointFromYaw ⟨0, 0, 0⟩ 0 4)
        ((spawnTransform ⟨0, 0, 0⟩ 0 2 ⟨270, 90, 0.2, 1⟩).location) = 1 * 2 ∧
      0 ≤ signedLateralOffset (waypointFromYaw ⟨0, 0, 0⟩ 0 4)
        ((spawnTransform ⟨0, 0, 0⟩ 0 2 ⟨270, 90, 0.2, 1⟩).location)) :=
  ⟨by norm_num, by norm_num,
   claim_C3_round_trip ⟨0, 0, 0⟩ 0 4 2 0.2 1 (by norm_num) (by norm_num)⟩

/-- C4 (amended): on a waypoint whose right vector has length zero, the metric
code performs no invalid-geometry check at all — it reaches the division with
a zero denominator, which under Python float semantics raises
ZeroDivisionError; no NaN propagates because the computation aborts, but the
input is not rejected with an invalid-geometry condition. -/
theorem claim_C4_no_guard_zero_division (wp : Waypoint) (loc : Vec3)
    (h : Vec3.dot wp.rightVec wp.rightVec = 0) :
    signedLateralOffsetChecked wp loc = Except.error PyError.zeroDivisionError := by
  simp only [signedLateralOffsetChecked]
  have h2 : wp.rightVec.x * wp.rightVec.x + wp.rightVec.y * wp.rightVec.y +
      wp.rightVec.z * wp.rightVec.z = 0 := h
  rw [h2, Real.sqrt_zero]
  rw [if_pos (by norm_num : (0 : ℝ) * 0 = 0)]

/-- Witness for C4's amended statement on a concrete malformed waypoint. -/
theorem claim_C4_witness :
    Vec3.dot (⟨0, 0, 0⟩ : Vec3) ⟨0, 0, 0⟩ = 0 ∧
    signedLateralOffsetChecked ⟨⟨0, 0, 0⟩, ⟨1, 0, 0⟩, ⟨0, 0, 0⟩, 5⟩ ⟨3, 4, 5⟩ =
      Except.error PyError.zeroDivisionError :=
  ⟨by norm_num [Vec3.dot],
   claim_C4_no_guard_zero_division ⟨⟨0, 0, 0⟩, ⟨1, 0, 0⟩, ⟨0, 0, 0⟩, 5⟩ ⟨3, 4, 5⟩
     (by norm_num [Vec3.dot])⟩

/-- C4 counterexample: at a concrete degenerate waypoint the computation
produces a ZeroDivisionError — it performs the division by zero rather than
signalling the invalid-geometry condition the claim asserts. -/
theorem claim_C4_counterexample :
    signedLateralOffsetChecked degenerateWaypoint ⟨1, 2, 0⟩ =
      Except.error PyError.zeroDivisionError ∧
    signedLateralOffsetChecked degenerateWaypoint ⟨1, 2, 0⟩ ≠
      Except.error PyError.invalidGeometry := by
  have h : signedLateralOffsetChecked degenerateWaypoint ⟨1, 2, 0⟩ =
      Except.error PyError.zeroDivisionError := by
    simp only [signedLateralOffsetChecked, degenerateWaypoint]
    norm_num
  refine ⟨h, ?_⟩
  rw [h]
  intro hc
  injection hc with h2
  exact PyError.noConfusion h2

/-- C5: the crossing scenarios' spawn placement displaces the waypoint
location by k times the ego lane width along the unit direction rotated 90°
from the lane heading (a direction perpendicular to the heading), adds 0.2 to
the elevation, and orients the result at lane heading + 270°; both scenario
offset dictionaries instantiate exactly this shape. -/
theorem claim_C5_spawn_placement (p : Vec3) (θ w k : ℝ) :
    (spawnTransform p θ w ⟨270, 90, 0.2, k⟩).location =
      p + Vec3.smul (k * w) (dirVec (radians (θ + 90))) + ⟨0, 0, 0.2⟩ ∧
    (spawnTransform p θ w ⟨270, 90, 0.2, k⟩).rotationYaw = θ + 270 ∧
    vecNorm (dirVec (radians (θ + 90))) = 1 ∧
    Vec3.dot (dirVec (radians θ)) (dirVec (radians (θ + 90))) = 0 ∧
    stationaryObjectCrossingOffset = (⟨270, 90, 0.2, 0.2⟩ : OffsetDict) ∧
    dynamicObjectCrossingOffset = (⟨270, 90, 0.2, 1.1⟩ : OffsetDict) := by
  refine ⟨?_, rfl, vecNorm_dirVec _, dot_dirVec_perp _, rfl, rfl⟩
  refine Vec3.ext3 ?_ ?_ ?_
  · show p.x + k * w * Real.cos (radians (θ + 90)) =
      p.x + k * w * Real.cos (radians (θ + 90)) + 0
    ring
  · show p.y + k * w * Real.sin (radians (θ + 90)) =
      p.y + k * w * Real.sin (radians (θ + 90)) + 0
    ring
  · show p.z + 0 + 0.2 = p.z + k * w * 0 + 0.2
    ring

theorem Vec3.dot_smul_add (r : Vec3) (a : ℝ) (v₁ v₂ : Vec3) :
    Vec3.dot r (Vec3.smul a v₁ + v₂) = a * Vec3.dot r v₁ + Vec3.dot r v₂ := by
  unfold Vec3.dot Vec3.smul
  show r.x * (a * v₁.x + v₂.x) + r.y * (a * v₁.y + v₂.y) + r.z * (a * v₁.z + v₂.z) =
    a * (r.x * v₁.x + r.y * v₁.y + r.z * v₁.z) + (r.x * v₂.x + r.y * v₂.y + r.z * v₂.z)
  ring

/-- C6: on every well-formed waypoint the signed lateral offset equals the
component of the offset vector along the right vector — hence it is linear in
that component, and its sign flips exactly when the location crosses the
lane's forward axis (where that component changes sign). -/
theorem claim_C6_offset_linear_and_sign_flip (p : Vec3) (θ w : ℝ) (loc : Vec3) :
    signedLateralOffset (waypointFromYaw p θ w) loc =
      Vec3.dot (waypointFromYaw p θ w).rightVec (loc - p) ∧
    (∀ (a : ℝ) (v₁ v₂ : Vec3),
      signedLateralOffset (waypointFromYaw p θ w) (p + (Vec3.smul a v₁ + v₂)) =
        a * signedLateralOffset (waypointFromYaw p θ w) (p + v₁) +
          signedLateralOffset (waypointFromYaw p θ w) (p + v₂)) ∧
    (0 < signedLateralOffset (waypointFromYaw p θ w) loc ↔
      0 < Vec3.dot (waypointFromYaw p θ w).rightVec (loc - p)) ∧
    (signedLateralOffset (waypointFromYaw p θ w) loc < 0 ↔
      Vec3.dot (waypointFromYaw p θ w).rightVec (loc - p) < 0) := by
  refine ⟨signedLateralOffset_waypointFromYaw p θ w loc, ?_, ?_, ?_⟩
  · intro a v₁ v₂
    rw [signedLateralOffset_waypointFromYaw, signedLateralOffset_waypointFromYaw,
      signedLateralOffset_waypointFromYaw, Vec3.add_sub_cancelLeft, Vec3.add_sub_cancelLeft,
      Vec3.add_sub_cancelLeft]
    exact Vec3.dot_smul_add _ a v₁ v₂
  · rw [signedLateralOffset_waypointFromYaw]
  · rw [signedLateralOffset_waypointFromYaw]

/-- C7: every metric sample aligns a frame index, a signed offset and a lane
half-width equal to half the waypoint's lane width (equal list lengths,
pointwise characterization), and the persisted output is a single file with
keys frames and distance, written once in overwrite mode at the end. -/
theorem claim_C7_metric_samples_and_output
    (townMap : CarlaMap) (tr : List Vec3) (start stop hid : Nat) :
    (metricsLoop townMap tr start stop).distances_list.length =
      (metricsLoop townMap tr start stop).frames_list.length ∧
    (metricsLoop townMap tr start stop).lane_width_list.length =
      (metricsLoop townMap tr start stop).frames_list.length ∧
    (∀ j, j < stop - start →
      (metricsLoop townMap tr start stop).lane_width_list.getD j 0 =
        (townMap (tr.getD (start + j - 1) default)).laneWidth / 2) ∧
    createMetrics townMap ⟨hid, some (start, stop), tr⟩ =
      Except.ok ⟨"srunner/metrics/data/ControlLoss_metric.json", FileMode.write,
        ⟨(metricsLoop townMap tr start stop).frames_list,
         (metricsLoop townMap tr start stop).distances_list⟩⟩ := by
  refine ⟨?_, ?_, ?_, rfl⟩
  · rw [metricsLoop_eq]
    show ((pyRange start stop).map (frameDistance townMap tr)).length =
      (pyRange start stop).length
    rw [List.length_map]
  · rw [metricsLoop_eq]
    show ((pyRange start stop).map (frameHalfWidth townMap tr)).length =
      (pyRange start stop).length
    rw [List.length_map]
  · intro j hj
    rw [metricsLoop_eq]
    show ((pyRange start stop).map (frameHalfWidth townMap tr)).getD j 0 = _
    unfold pyRange
    rw [getD_map_rangeFrom _ _ (stop - start) start j hj]
    rfl

/-- Witness for C7 at a concrete map, transform list and frame range. -/
theorem claim_C7_witness :
    ((metricsLoop sampleMap sampleTransforms 1 3).distances_list.length =
      (metricsLoop sampleMap sampleTransforms 1 3).frames_list.length) ∧
    ((metricsLoop sampleMap sampleTransforms 1 3).lane_width_list.length =
      (metricsLoop sampleMap sampleTransforms 1 3).frames_list.length) ∧
    (0 < 3 - 1 ∧ (metricsLoop sampleMap sampleTransforms 1 3).lane_width_list.getD 0 0 =
      (sampleMap (sampleTransforms.getD (1 + 0 - 1) default)).laneWidth / 2) ∧
    createMetrics sampleMap ⟨9, some (1, 3), sampleTransforms⟩ =
      Except.ok ⟨"srunner/metrics/data/ControlLoss_metric.json", FileMode.write,
        ⟨(metricsLoop sampleMap sampleTransforms 1 3).frames_list,
         (metricsLoop sampleMap sampleTransforms 1 3).distances_list⟩⟩ :=
  ⟨(claim_C7_metric_samples_and_output sampleMap sampleTransforms 1 3 9).1,
   (claim_C7_metric_samples_and_output sampleMap sampleTransforms 1 3 9).2.1,
   ⟨by norm_num, (claim_C7_metric_samples_and_output sampleMap sampleTransforms 1 3 9).2.2.1 0
     (by norm_num)⟩,
   (claim_C7_metric_samples_and_output sampleMap sampleTransforms 1 3 9).2.2.2⟩

/-- C8: when the recording holds no alive-frame data for the ego actor, the
Metric Extractor fails with the actor-not-found condition and emits no output
file at all (in particular, no file with empty frame and distance lists). -/
theorem claim_C8_actor_not_found (townMap : CarlaMap) (log : MetricsLog)
    (h : log.aliveFrames = none) :
    createMetrics townMap log = Except.error PyError.actorNotFound ∧
    ∀ f : WrittenFile, createMetrics townMap log ≠ Except.ok f := by
  have hmain : createMetrics townMap log = Except.error PyError.actorNotFound := by
    unfold createMetrics MetricsLog.getActorAliveFrames
    rw [h]
  refine ⟨hmain, fun f hc => ?_⟩
  rw [hmain] at hc
  exact Except.noConfusion hc

/-- Witness for C8 on a concrete recording with no alive-frame data. -/
theorem claim_C8_witness :
    (MetricsLog.mk 7 none []).aliveFrames = none ∧
    createMetrics sampleMap ⟨7, none, []⟩ = Except.error PyError.actorNotFound ∧
    ∀ f : WrittenFile, createMetrics sampleMap ⟨7, none, []⟩ ≠ Except.ok f :=
  ⟨rfl, (claim_C8_actor_not_found sampleMap ⟨7, none, []⟩ rfl).1,
   (claim_C8_actor_not_found sampleMap ⟨7, none, []⟩ rfl).2⟩

/-- C9: neither crossing-scenario constructor ever completes normally — after
the spawn-pose computation, the second base-class call's argument list names
`town`, which is bound nowhere in their scope, so Python raises NameError
before any scenario object is returned, for every argument combination. -/
theorem claim_C9_constructors_never_complete (w : ℝ) (p : Vec3) (θ : ℝ) :
    stationaryObjectCrossingInit w p θ = Except.error (PyError.nameError "town") ∧
    dynamicObjectCrossingInit w p θ = Except.error (PyError.nameError "town") :=
  ⟨rfl, rfl⟩

/-- C10: over any alive frame range the emitted frame and distance lists have
equal length stop - start, and the frame list is the strictly increasing
consecutive sequence start, start+1, ..., stop-1. -/
theorem claim_C10_output_lists_shape (townMap : CarlaMap) (tr : List Vec3)
    (start stop : Nat) (h : start ≤ stop) :
    (metricsLoop townMap tr start stop).frames_list.length = stop - start ∧
    (metricsLoop townMap tr start stop).distances_list.length = stop - start ∧
    (∀ j, j < stop - start →
      (metricsLoop townMap tr start stop).frames_list.getD j 0 = start + j) ∧
    List.Chain' (fun a b => b = a + 1) (metricsLoop townMap tr start stop).frames_list := by
  rw [metricsLoop_eq]
  refine ⟨?_, ?_, ?_, ?_⟩
  · show (pyRange start stop).length = stop - start
    exact length_rangeFrom _ _
  · show ((pyRange start stop).map (frameDistance townMap tr)).length = stop - start
    rw [List.length_map]
    exact length_rangeFrom _ _
  · intro j hj
    show (pyRange start stop).getD j 0 = start + j
    exact getD_rangeFrom _ _ _ hj
  · show List.Chain' (fun a b => b = a + 1) (pyRange start stop)
    exact chain'_rangeFrom _ _

/-- Witness for C10 at a concrete map, transform list and frame range. -/
theorem claim_C10_witness :
    1 ≤ 3 ∧
    (metricsLoop sampleMap sampleTransforms 1 3).frames_list.length = 3 - 1 ∧
    (metricsLoop sampleMap sampleTransforms 1 3).distances_list.length = 3 - 1 ∧
    (0 < 3 - 1 ∧ (metricsLoop sampleMap sampleTransforms 1 3).frames_list.getD 0 0 = 1 + 0) ∧
    List.Chain' (fun a b => b = a + 1) (metricsLoop sampleMap sampleTransforms 1 3).frames_list :=
  ⟨by norm_num,
   (claim_C10_output_lists_shape sampleMap sampleTransforms 1 3 (by norm_num)).1,
   (claim_C10_output_lists_shape sampleMap sampleTransforms 1 3 (by norm_num)).2.1,
   ⟨by norm_num, (claim_C10_output_lists_shape sampleMap sampleTransforms 1 3 (by norm_num)).2.2.1
     0 (by norm_num)⟩,
   (claim_C10_output_lists_shape sampleMap sampleTransforms 1 3 (by norm_num)).2.2.2⟩

end ScenarioRunner
